import Mathlib

/-!
Verification development for the WhatsApp chat analytics pipeline
(`src/main.py`).  Text is modelled shallowly as lists of Unicode code
points (`List Nat`); Python regular expressions are hand-translated into
executable matching functions whose backtracking order mirrors the
CPython `re` engine on the concrete pattern; `float` sentiment scores
are modelled as rationals (`ℚ`), which preserves the order-theoretic
clamping behaviour (IEEE NaN is outside this model).
-/

/-- Convert a Lean string literal into its list of Unicode code points;
used to write the embedded program's string constants. -/
def S (s : String) : List Nat := s.data.map Char.toNat

/-- Code points treated as whitespace by Python's `str.strip()`, `str.split()`
and by `\s` in a (unicode) `re` pattern: ASCII whitespace, the C1/format
separators 0x1c-0x1f and 0x85, and the Unicode space characters. -/
def isPySpace (c : Nat) : Bool :=
  decide (c = 32 ∨ (9 ≤ c ∧ c ≤ 13) ∨ (28 ≤ c ∧ c ≤ 31) ∨ c = 133 ∨ c = 160 ∨
    c = 0x1680 ∨ (0x2000 ≤ c ∧ c ≤ 0x200a) ∨ c = 0x2028 ∨ c = 0x2029 ∨
    c = 0x202f ∨ c = 0x205f ∨ c = 0x3000)

/-- Python `str.strip()`: drop leading and trailing whitespace. -/
def pyStrip (l : List Nat) : List Nat :=
  ((l.dropWhile isPySpace).reverse.dropWhile isPySpace).reverse

/-- Python `timestamp.strip('[]')` (main.py line 403): drop leading and
trailing characters belonging to the set `{'[', ']'}`. -/
def stripBrackets (l : List Nat) : List Nat :=
  ((l.dropWhile (fun c => c = 91 ∨ c = 93)).reverse.dropWhile
    (fun c => c = 91 ∨ c = 93)).reverse

/-- The character class of `UNICODE_CONTROL_CHARS = re.compile(r'[‎‏‪- ]+')`
(main.py line 206).  Note that U+200B (zero-width space), U+200C (ZWNJ),
U+200D (ZWJ) and U+FEFF (BOM) are NOT in this class. -/
def isControlRemoved (c : Nat) : Bool :=
  decide (c = 0x200e ∨ c = 0x200f ∨ (0x202a ≤ c ∧ c ≤ 0x202f))

/-- `clean_message` (main.py lines 208-210): substitute every run of the
control-character class by the empty string — i.e. delete those
characters — then `strip()` surrounding whitespace. -/
def clean_message (text : List Nat) : List Nat :=
  pyStrip (text.filter (fun c => ¬ isControlRemoved c))

/-- Python `str.lower()` restricted to ASCII letters (the inputs the
claims evaluate contain only ASCII letters; non-ASCII letters are kept
unchanged in this model). -/
def pyLower (l : List Nat) : List Nat :=
  l.map (fun c => if 65 ≤ c ∧ c ≤ 90 then c + 32 else c)

/-- Python `str.upper()` restricted to ASCII letters. -/
def pyUpper (l : List Nat) : List Nat :=
  l.map (fun c => if 97 ≤ c ∧ c ≤ 122 then c - 32 else c)

/-- ASCII digit code point. -/
def isDigitCp (c : Nat) : Bool := decide (48 ≤ c ∧ c ≤ 57)

/-- Split off the maximal leading run of ASCII digits. -/
def splitDigits (s : List Nat) : List Nat × List Nat :=
  (s.takeWhile isDigitCp, s.dropWhile isDigitCp)

/-- Numeric value of a digit run. -/
def natOfDigits (ds : List Nat) : Nat := ds.foldl (fun a c => a * 10 + (c - 48)) 0

/-- Length bound for `dropWhile`, used for termination of split loops. -/
theorem lengthDropWhileLe (p : Nat → Bool) (l : List Nat) :
    (l.dropWhile p).length ≤ l.length := by
  induction l with
  | nil => simp
  | cons c rest ih =>
    by_cases h : p c
    · simp only [List.dropWhile, h]
      exact Nat.le_trans ih (Nat.le_succ _)
    · simp [List.dropWhile, h]

/-- Structural splitter: cut the list at every separator character,
dropping empty pieces; `acc` holds the reversed current piece. -/
def splitAux (sep : Nat → Bool) : List Nat → List Nat → List (List Nat)
  | acc, [] => if acc = [] then [] else [acc.reverse]
  | acc, c :: rest =>
    if sep c then
      (if acc = [] then splitAux sep [] rest
       else acc.reverse :: splitAux sep [] rest)
    else splitAux sep (c :: acc) rest

/-- Python `str.split()` with no argument: split on runs of whitespace,
discarding empty pieces. -/
def pySplit (l : List Nat) : List (List Nat) := splitAux isPySpace [] l

/-- First line of a string: the prefix before the first newline.  Used to
express `re.match` of a pattern of shape `.*LITERAL`, whose `.*` cannot
cross a newline. -/
def firstLine (l : List Nat) : List Nat := l.takeWhile (fun c => c ≠ 10)

/-- Keep the first occurrence of each element (Python `set` construction,
order-insensitively used for intersections). -/
def dedup : List (List Nat) → List (List Nat)
  | [] => []
  | w :: rest => w :: (dedup rest).filter (fun v => v ≠ w)

/-- Insertion-order-preserving multiplicity counter, modelling Python's
`collections.Counter` over a list. -/
def counterOf {α : Type} [DecidableEq α] (l : List α) : List (α × Nat) :=
  l.foldl (fun acc w =>
    if acc.any (fun p => p.1 = w) then
      acc.map (fun p => if p.1 = w then (p.1, p.2 + 1) else p)
    else acc ++ [(w, 1)]) []

/-- Membership-check of `0x200b` surviving `clean_message`; scratch check. -/
example : 0x200b ∈ clean_message (S "A\u200Bb") := by decide

/-- Consume one character matching `\\s` (a single whitespace character in a
`re` pattern). -/
def ws1 (s : List Nat) : Option (List Nat) :=
  match s with
  | c :: rest => if isPySpace c then some rest else none
  | [] => none

/-- Consume one literal character. -/
def litc (c : Nat) (s : List Nat) : Option (List Nat) :=
  match s with
  | d :: rest => if d = c then some rest else none
  | [] => none

/-- Consume a literal token. -/
def litTok (tok : List Nat) (s : List Nat) : Option (List Nat) :=
  if tok.isPrefixOf s then some (s.drop tok.length) else none

/-- Consume `\\d{1,2}` when the pattern continues with a non-digit literal:
with such a continuation the greedy-with-backtracking semantics coincide
with taking the maximal digit run and requiring its length to be 1 or 2. -/
def num12 (s : List Nat) : Option (List Nat) :=
  let (r, rest) := splitDigits s
  if r.length = 1 ∨ r.length = 2 then some rest else none

/-- Consume `\\d{k}` (exact repetition) when followed by a non-digit literal:
equivalent to a maximal digit run of length exactly `k`. -/
def numExact (k : Nat) (s : List Nat) : Option (List Nat) :=
  let (r, rest) := splitDigits s
  if r.length = k then some rest else none

/-- Consume `\\d{2,4}` when followed by a non-digit literal: maximal digit
run of length 2, 3 or 4. -/
def num24 (s : List Nat) : Option (List Nat) :=
  let (r, rest) := splitDigits s
  if r.length = 2 ∨ r.length = 3 ∨ r.length = 4 then some rest else none

/-- Lazy scan for `(.*?)` followed by a colon and one separator character
satisfying `sep` (`\\s` for pattern 0, a literal space for patterns 1/2):
returns the shortest newline-free prefix before such a colon, and the
suffix after the separator.  The dot of `re` does not match a newline. -/
def senderScan (sep : Nat → Bool) : List Nat → Option (List Nat × List Nat)
  | [] => none
  | c :: rest =>
    if c = 10 then none
    else if c = 58 then
      match rest with
      | d :: r2 =>
        if sep d then some ([], r2)
        else match senderScan sep rest with
          | some (pre, suf) => some (c :: pre, suf)
          | none => none
      | [] => none
    else match senderScan sep rest with
      | some (pre, suf) => some (c :: pre, suf)
      | none => none

/-- Greedy `(.*)`: the longest newline-free prefix (the match need not
reach the end of the subject). -/
def dotStar (s : List Nat) : List Nat := s.takeWhile (fun c => c ≠ 10)

/-- Timestamp shape of `WHATSAPP_PATTERNS[0]`
(`\\d{1,2}/\\d{1,2}/\\d{4},\\s\\d{1,2}:\\d{2}:\\d{2}`); returns the rest. -/
def tsShape0 (s : List Nat) : Option (List Nat) := do
  let s ← num12 s
  let s ← litc 47 s
  let s ← num12 s
  let s ← litc 47 s
  let s ← numExact 4 s
  let s ← litc 44 s
  let s ← ws1 s
  let s ← num12 s
  let s ← litc 58 s
  let s ← numExact 2 s
  let s ← litc 58 s
  numExact 2 s

/-- `WHATSAPP_PATTERNS[0] = \\[(ts)\\]\\s(.*?):\\s(.*)` (main.py line 240):
bracketed 24-hour timestamp, then sender (lazy, up to a colon followed by
whitespace), then message.  Returns `(timestamp, sender, message)`. -/
def pattern0_match (s : List Nat) : Option (List Nat × List Nat × List Nat) :=
  match s with
  | 91 :: t =>
    match tsShape0 t with
    | some rest1 =>
      let ts := t.take (t.length - rest1.length)
      match rest1 with
      | 93 :: r2 =>
        match ws1 r2 with
        | some r3 =>
          match senderScan isPySpace r3 with
          | some (snd, suf) => some (ts, snd, dotStar suf)
          | none => none
        | none => none
      | _ => none
    | none => none
  | _ => none

/-- Candidate remainders after the optional seconds group `(?::\\d{2})?`,
in greedy order (with, then without). -/
def optSeconds (s : List Nat) : List (List Nat) :=
  match (do
    let s1 ← litc 58 s
    numExact 2 s1) with
  | some s1 => [s1, s]
  | none => [s]

/-- Candidate remainders after the optional `(?:AM|PM)?`, greedy order. -/
def optAmPm (s : List Nat) : List (List Nat) :=
  match s with
  | a :: b :: rest =>
    if (a = 65 ∨ a = 80) ∧ b = 77 then [rest, s] else [s]
  | _ => [s]

/-- Candidate remainders after an optional literal token, greedy order. -/
def optTok (tok : List Nat) (s : List Nat) : List (List Nat) :=
  if tok.isPrefixOf s then [s.drop tok.length, s] else [s]

/-- Candidate remainders after `\\s?`, greedy order. -/
def optWs (s : List Nat) : List (List Nat) :=
  match s with
  | c :: rest => if isPySpace c then [rest, s] else [s]
  | [] => [s]

/-- Shared tail of patterns 1 and 2: given the remainder `r` right after
the timestamp capture group and the original subject `s`, match the
literal " - ", then the lazy sender up to ": ", then the message.  The
timestamp capture is the consumed prefix of `s`. -/
def dashTail (s r : List Nat) : Option (List Nat × List Nat × List Nat) := do
  let r1 ← litTok [32, 45, 32] r
  let (snd, suf) ← senderScan (fun d => d = 32) r1
  some (s.take (s.length - r.length), snd, dotStar suf)

/-- `WHATSAPP_PATTERNS[1]`
(`(\\d{1,2}/\\d{1,2}/\\d{2,4},\\s\\d{1,2}:\\d{2}(?::\\d{2})?\\s(?:AM|PM)?) - (.*?): (.*)`,
main.py line 241).  Backtracks over the optional seconds and AM/PM groups
in the engine's greedy order. -/
def pattern1_match (s : List Nat) : Option (List Nat × List Nat × List Nat) := do
  let r0 ← num12 s
  let r0 ← litc 47 r0
  let r0 ← num12 r0
  let r0 ← litc 47 r0
  let r0 ← num24 r0
  let r0 ← litc 44 r0
  let r0 ← ws1 r0
  let r0 ← num12 r0
  let r0 ← litc 58 r0
  let r0 ← numExact 2 r0
  (optSeconds r0).findSome? (fun r1 =>
    match ws1 r1 with
    | some r2 => (optAmPm r2).findSome? (fun r3 => dashTail s r3)
    | none => none)

/-- `WHATSAPP_PATTERNS[2]`
(`(\\d{1,2}/\\d{1,2}/\\d{2,4},\\s\\d{1,2}:\\d{2}(?::\\d{2})?) - (.*?): (.*)`,
main.py line 242). -/
def pattern2_match (s : List Nat) : Option (List Nat × List Nat × List Nat) := do
  let r0 ← num12 s
  let r0 ← litc 47 r0
  let r0 ← num12 r0
  let r0 ← litc 47 r0
  let r0 ← num24 r0
  let r0 ← litc 44 r0
  let r0 ← ws1 r0
  let r0 ← num12 r0
  let r0 ← litc 58 r0
  let r0 ← numExact 2 r0
  (optSeconds r0).findSome? (fun r1 => dashTail s r1)

example : pattern0_match (S "[24/08/2024, 21:35:29] Alice: hello there") =
    some (S "24/08/2024, 21:35:29", S "Alice", S "hello there") := by decide
example : pattern1_match (S "1/2/24, 3:45 PM - Bob: hi there all") =
    some (S "1/2/24, 3:45 PM", S "Bob", S "hi there all") := by decide
example : pattern2_match (S "1/2/24, 13:45 - Bob: yo") =
    some (S "1/2/24, 13:45", S "Bob", S "yo") := by decide
example : pattern1_match (S "[99/99/2024, 21:36:00] Carol: hi") = none := by decide

/-- Parsed calendar timestamp, as produced by `datetime.strptime`. -/
structure PDateTime where
  year : Nat
  month : Nat
  day : Nat
  hour : Nat
  minute : Nat
  second : Nat
deriving DecidableEq, Repr

/-- Gregorian leap year (as in Python's `datetime`). -/
def isLeap (y : Nat) : Bool := y % 4 = 0 ∧ (y % 100 ≠ 0 ∨ y % 400 = 0)

/-- Days in a month of the proleptic Gregorian calendar. -/
def daysInMonth (y m : Nat) : Nat :=
  if m = 2 then (if isLeap y then 29 else 28)
  else if m = 4 ∨ m = 6 ∨ m = 9 ∨ m = 11 then 30 else 31

/-- The `datetime(...)` constructor check that rejects e.g. February 30
(this is the `ValueError` path of `strptime` after the regex phase). -/
def mkDatetime (y mo d h mi sec : Nat) : Option PDateTime :=
  if 1 ≤ d ∧ d ≤ daysInMonth y mo then some ⟨y, mo, d, h, mi, sec⟩ else none

/-- `%d` directive regex `3[01]|[12]\\d|0[1-9]|[1-9]`: a 2-digit value
01..31 or a 1-digit value 1..9. -/
def okDay (v l : Nat) : Bool := (l = 2 ∧ 1 ≤ v ∧ v ≤ 31) ∨ (l = 1 ∧ 1 ≤ v)

/-- `%m` directive regex `1[0-2]|0[1-9]|[1-9]`. -/
def okMonth (v l : Nat) : Bool := (l = 2 ∧ 1 ≤ v ∧ v ≤ 12) ∨ (l = 1 ∧ 1 ≤ v)

/-- `%H` directive regex `2[0-3]|[0-1]\\d|\\d`. -/
def okHour24 (v l : Nat) : Bool := (l = 2 ∧ v ≤ 23) ∨ l = 1

/-- `%I` directive regex `1[0-2]|0[1-9]|[1-9]`. -/
def okHour12 (v l : Nat) : Bool := (l = 2 ∧ 1 ≤ v ∧ v ≤ 12) ∨ (l = 1 ∧ 1 ≤ v)

/-- `%M`/`%S` directive regex `[0-5]\\d|\\d`. -/
def okMinSec (v l : Nat) : Bool := (l = 2 ∧ v ≤ 59) ∨ l = 1

/-- Maximal digit run validated by a directive's value/length predicate.
All numeric directives in the five formats are followed by a non-digit
literal (or end of input), so the directive's greedy regex with
backtracking coincides with this maximal-run reading. -/
def numField (ok : Nat → Nat → Bool) (s : List Nat) : Option (Nat × List Nat) :=
  let (r, rest) := splitDigits s
  if r ≠ [] ∧ ok (natOfDigits r) r.length then some (natOfDigits r, rest) else none

/-- `%Y`/`%y`: an exact-length digit run. -/
def yearField (len : Nat) (s : List Nat) : Option (Nat × List Nat) :=
  let (r, rest) := splitDigits s
  if r.length = len then some (natOfDigits r, rest) else none

/-- Numeric directive followed by a one-character literal. -/
def numFieldLit (ok : Nat → Nat → Bool) (sep : Nat) (s : List Nat) :
    Option (Nat × List Nat) :=
  match numField ok s with
  | some (v, rest) =>
    match litc sep rest with
    | some r2 => some (v, r2)
    | none => none
  | none => none

/-- Whitespace in a `strptime` format string matches one or more
whitespace characters. -/
def wsPlus (s : List Nat) : Option (List Nat) :=
  match s with
  | c :: rest => if isPySpace c then some (rest.dropWhile isPySpace) else none
  | [] => none

/-- `%y` century rule of CPython `_strptime`: 00-68 map to 20xx,
69-99 to 19xx. -/
def yFrom2 (v : Nat) : Nat := if v ≤ 68 then 2000 + v else 1900 + v

/-- `%p` directive: `AM` or `PM`, case-insensitive (the `strptime` regex
is compiled with `IGNORECASE`).  Returns `(isPM, rest)`. -/
def parseAmPm (s : List Nat) : Option (Bool × List Nat) :=
  match s with
  | a :: b :: rest =>
    if (a = 65 ∨ a = 97) ∧ (b = 77 ∨ b = 109) then some (false, rest)
    else if (a = 80 ∨ a = 112) ∧ (b = 77 ∨ b = 109) then some (true, rest)
    else none
  | _ => none

/-- 12-hour to 24-hour conversion of `_strptime` given the `%p` value. -/
def hourOfAmPm (h : Nat) (isPM : Bool) : Nat :=
  if isPM then (if h ≠ 12 then h + 12 else h)
  else (if h = 12 then 0 else h)

/-- Shared date head `a/b/y, ` of all five formats: two validated numeric
fields separated by `/`, a year of exact length `ylen`, a comma, then the
format's literal blank (one or more whitespace characters).  Returns
`(a, b, yearDigits, rest)`. -/
def parseDateHead (okA okB : Nat → Nat → Bool) (ylen : Nat) (s : List Nat) :
    Option (Nat × Nat × Nat × List Nat) :=
  match numFieldLit okA 47 s with
  | none => none
  | some (a, s) =>
  match numFieldLit okB 47 s with
  | none => none
  | some (b, s) =>
  match yearField ylen s with
  | none => none
  | some (y, s) =>
  match litc 44 s with
  | none => none
  | some (s) =>
  match wsPlus s with
  | none => none
  | some (s) => some (a, b, y, s)

/-- Time part `%H:%M:%S` (or `%I:%M:%S`) with end-of-input required.  Used
by formats 1, 2 and 4. -/
def parseHMSEnd (okH : Nat → Nat → Bool) (s : List Nat) :
    Option (Nat × Nat × Nat × List Nat) :=
  match numFieldLit okH 58 s with
  | none => none
  | some (h, s) =>
  match numFieldLit okMinSec 58 s with
  | none => none
  | some (mi, s) =>
  match numField okMinSec s with
  | none => none
  | some (sec, s) => some (h, mi, sec, s)

/-- Time part `%H:%M` / `%I:%M`. -/
def parseHMOnly (okH : Nat → Nat → Bool) (s : List Nat) :
    Option (Nat × Nat × List Nat) :=
  match numFieldLit okH 58 s with
  | none => none
  | some (h, s) =>
  match numField okMinSec s with
  | none => none
  | some (mi, s) => some (h, mi, s)

/-- Format `'%d/%m/%Y, %H:%M:%S'`. -/
def parseFmt1 (s : List Nat) : Option PDateTime :=
  match parseDateHead okDay okMonth 4 s with
  | none => none
  | some (d, mo, y, s) =>
  match parseHMSEnd okHour24 s with
  | none => none
  | some (h, mi, sec, s) =>
  if s = [] then mkDatetime y mo d h mi sec else none

/-- Format `'%m/%d/%y, %I:%M:%S %p'`.  The trailing ` %p` is a whitespace
run followed by AM/PM, and the whole input must be consumed. -/
def parseFmt2 (s : List Nat) : Option PDateTime :=
  match parseDateHead okMonth okDay 2 s with
  | none => none
  | some (mo, d, y, s) =>
  match parseHMSEnd okHour12 s with
  | none => none
  | some (h, mi, sec, s) =>
  match wsPlus s with
  | none => none
  | some (s) =>
  match parseAmPm s with
  | none => none
  | some (isPM, s) =>
  if s = [] then mkDatetime (yFrom2 y) mo d (hourOfAmPm h isPM) mi sec else none

/-- Format `'%m/%d/%y, %I:%M %p'`. -/
def parseFmt3 (s : List Nat) : Option PDateTime :=
  match parseDateHead okMonth okDay 2 s with
  | none => none
  | some (mo, d, y, s) =>
  match parseHMOnly okHour12 s with
  | none => none
  | some (h, mi, s) =>
  match wsPlus s with
  | none => none
  | some (s) =>
  match parseAmPm s with
  | none => none
  | some (isPM, s) =>
  if s = [] then mkDatetime (yFrom2 y) mo d (hourOfAmPm h isPM) mi 0 else none

/-- Format `'%d/%m/%y, %H:%M:%S'`. -/
def parseFmt4 (s : List Nat) : Option PDateTime :=
  match parseDateHead okDay okMonth 2 s with
  | none => none
  | some (d, mo, y, s) =>
  match parseHMSEnd okHour24 s with
  | none => none
  | some (h, mi, sec, s) =>
  if s = [] then mkDatetime (yFrom2 y) mo d h mi sec else none

/-- Format `'%d/%m/%y, %H:%M'`. -/
def parseFmt5 (s : List Nat) : Option PDateTime :=
  match parseDateHead okDay okMonth 2 s with
  | none => none
  | some (d, mo, y, s) =>
  match parseHMOnly okHour24 s with
  | none => none
  | some (h, mi, s) =>
  if s = [] then mkDatetime (yFrom2 y) mo d h mi 0 else none

/-- The ordered list of timestamp formats tried by `parse_whatsapp_chat`
(main.py lines 406-412): first successful parse wins, `None` if all fail. -/
def strptime_list (ts : List Nat) : Option PDateTime :=
  match parseFmt1 ts with
  | some dt => some dt
  | none =>
  match parseFmt2 ts with
  | some dt => some dt
  | none =>
  match parseFmt3 ts with
  | some dt => some dt
  | none =>
  match parseFmt4 ts with
  | some dt => some dt
  | none => parseFmt5 ts

example : strptime_list (S "24/08/2024, 21:35:29") =
    some (PDateTime.mk 2024 8 24 21 35 29) := by decide
example : strptime_list (S "99/99/2024, 21:36:00") = none := by decide
example : strptime_list (S "1/2/24, 3:45:10 PM") =
    some (PDateTime.mk 2024 1 2 15 45 10) := by decide
example : strptime_list (S "30/02/24, 10:00:00") = none := by decide

/-- All suffixes following a colon consumable by the lazy `(?:.*?):` of
`MEDIA_PATTERN`, in ascending (lazy) order; the dot cannot cross a
newline, and a colon is itself consumable by the dot, so the scan
continues past each colon. -/
def colonCands : List Nat → List (List Nat)
  | [] => []
  | c :: rest =>
    if c = 58 then rest :: colonCands rest
    else if c = 10 then []
    else colonCands rest

/-- Word character of `\\w` restricted to ASCII (letters, digits and
underscore; the file-name inputs considered are ASCII). -/
def isWordCp (c : Nat) : Bool :=
  decide ((48 ≤ c ∧ c ≤ 57) ∨ (65 ≤ c ∧ c ≤ 90) ∨ (97 ≤ c ∧ c ≤ 122) ∨ c = 95)

/-- Candidate remainders of the optional timestamp block of `MEDIA_PATTERN`
(`(?:\\d{2}/\\d{2}/\\d{4},\\s\\d{1,2}:\\d{2}(?::\\d{2})?\\s?(?:AM|PM)?\\]?\\s)?`),
in the engine's greedy backtracking order, the skip branch last. -/
def mediaTsCands (s : List Nat) : List (List Nat) :=
  let withTs :=
    match (do
      let r ← numExact 2 s
      let r ← litc 47 r
      let r ← numExact 2 r
      let r ← litc 47 r
      let r ← numExact 4 r
      let r ← litc 44 r
      let r ← ws1 r
      let r ← num12 r
      let r ← litc 58 r
      numExact 2 r) with
    | none => []
    | some r0 =>
      (optSeconds r0).flatMap (fun r1 =>
        (optWs r1).flatMap (fun r2 =>
          (optAmPm r2).flatMap (fun r3 =>
            (optTok [93] r3).filterMap (fun r4 => ws1 r4))))
  withTs ++ [s]

/-- The `(image|video|GIF|sticker|audio|document) omitted` alternative of
`MEDIA_PATTERN`; returns capture group 1. -/
def mediaOmittedAlt (s : List Nat) : Option (List Nat) :=
  ([S "image", S "video", S "GIF", S "sticker", S "audio", S "document"]).findSome?
    (fun kw =>
      match litTok kw s with
      | some r => match litTok (S " omitted") r with
        | some _ => some kw
        | none => none
      | none => none)

/-- Maximal run matching `\\d+` or `\\w+` when followed by a character
outside the class (here always `-`): giving back characters cannot help
because the following literal is outside the class. -/
def classRun (cls : Nat → Bool) (s : List Nat) : Option (List Nat × List Nat) :=
  let r := s.takeWhile cls
  if r = [] then none else some (r, s.dropWhile cls)

/-- The `<attached: \\d+-(\\w+)-\\d{4}-\\d{2}-\\d{2}-\\d{2}-\\d{2}-\\d{2}\\.(ext)>`
alternative of `MEDIA_PATTERN`; returns capture group 3 (the extension). -/
def mediaAttachedAlt (s : List Nat) : Option (List Nat) :=
  match litTok (S "<attached: ") s with
  | none => none
  | some r =>
  match classRun isDigitCp r with
  | none => none
  | some (_, r) =>
  match litc 45 r with
  | none => none
  | some r =>
  match classRun isWordCp r with
  | none => none
  | some (_, r) =>
  match litc 45 r with
  | none => none
  | some r =>
  match (do
    let r ← numExact 4 r
    let r ← litc 45 r
    let r ← numExact 2 r
    let r ← litc 45 r
    let r ← numExact 2 r
    let r ← litc 45 r
    let r ← numExact 2 r
    let r ← litc 45 r
    let r ← numExact 2 r
    let r ← litc 45 r
    let r ← numExact 2 r
    litc 46 r) with
  | none => none
  | some r =>
    ([S "jpg", S "jpeg", S "png", S "gif", S "mp4", S "webp", S "pdf",
      S "doc", S "docx"]).findSome? (fun ext =>
      match litTok ext r with
      | some r2 => match litc 62 r2 with
        | some _ => some ext
        | none => none
      | none => none)

/-- Either alternative of `MEDIA_PATTERN` at a fixed position, tried in
pattern order; the result is `(group 1, group 3)` — the code reads
`group(1)` (omitted keyword) and `group(3)` (attached file extension). -/
def mediaAlt (s : List Nat) : Option (Option (List Nat) × Option (List Nat)) :=
  match mediaOmittedAlt s with
  | some kw => some (some kw, none)
  | none =>
    match mediaAttachedAlt s with
    | some ext => some (none, some ext)
    | none => none

/-- `MEDIA_PATTERN.match` (main.py line 213): optional left-to-right mark,
optional `[`, optional timestamp block, a lazy anything-then-colon, `\\s?`,
optional left-to-right mark, then one of the two media alternatives.
Choice points are explored in the engine's order (earlier choice points
vary more slowly; optional groups try their filled branch first; the lazy
dot-star tries shorter prefixes first).  Returns `(group 1, group 3)` of
the first overall match, `none` when no choice succeeds. -/
def media_pattern_match (s : List Nat) :
    Option (Option (List Nat) × Option (List Nat)) :=
  ((optTok [0x200e] s).flatMap (fun c1 =>
    (optTok [91] c1).flatMap (fun c2 =>
      (mediaTsCands c2).flatMap (fun c3 =>
        (colonCands c3).flatMap (fun c4 =>
          (optWs c4).flatMap (fun c5 => optTok [0x200e] c5)))))).findSome? mediaAlt

example : media_pattern_match (S "image omitted") = none := by decide
example : media_pattern_match (S "x: image omitted") =
    some (some (S "image"), none) := by decide
example : media_pattern_match (S "Bob: <attached: 00000042-PHOTO-2024-01-15-12-30-45.jpg>") =
    some (none, some (S "jpg")) := by decide
example : media_pattern_match (S "hello there") = none := by decide

/-- Contiguous substring test (Python's `in` on strings). -/
def isSubstr (needle : List Nat) : List Nat → Bool
  | [] => needle.isPrefixOf []
  | c :: rest => needle.isPrefixOf (c :: rest) || isSubstr needle rest

/-- `SYSTEM_MESSAGE_PATTERNS` check (main.py lines 231-238, used as
`any(pattern.match(message) for pattern in SYSTEM_MESSAGE_PATTERNS)`).
`re.match` of `.*LIT` holds iff `LIT` occurs in the first line of the
subject (the dot cannot cross a newline and `LIT` contains none), and
`re.match` of `LIT.*` or plain `LIT` holds iff `LIT` is a prefix of the
subject. -/
def system_message_match (msg : List Nat) : Bool :=
  isSubstr (S "joined using this group\u0027s invite link") (firstLine msg) ||
  isSubstr (S "created this group") (firstLine msg) ||
  (S "Your security code with").isPrefixOf msg ||
  isSubstr (S "changed their phone number") (firstLine msg) ||
  (S "Messages and calls are end-to-end encrypted").isPrefixOf msg ||
  (S "This message was deleted").isPrefixOf msg

example : system_message_match (S "This message was deleted") = true := by decide
example : system_message_match (S "Alice created this group") = true := by decide
example : system_message_match (S "hello there") = false := by decide

/-- `MediaItem` (main.py lines 147-151). -/
structure MediaItem' where
  type : List Nat
  sender : List Nat
  timestamp : List Nat
  reactions : Nat
deriving DecidableEq, Repr

/-- A parsed message record, an element of the `messages` list built by
`parse_whatsapp_chat` (main.py lines 418-422). -/
structure MsgRec where
  timestamp : PDateTime
  sender : List Nat
  message : List Nat
deriving DecidableEq, Repr

/-- The loop state of `parse_whatsapp_chat`: the accumulated records, the
accumulated media items, and the pending multi-line continuation
(`current_message`). -/
structure ParseState where
  messages : List MsgRec
  media_items : List MediaItem'
  current : List Nat
deriving DecidableEq, Repr

/-- `VALID_MEDIA_TYPES` (main.py line 216). -/
def VALID_MEDIA_TYPES : List (List Nat) :=
  [S "image", S "video", S "gif", S "sticker", S "audio", S "document"]

/-- `MEDIA_TYPE_MAP` (main.py lines 219-228). -/
def MEDIA_TYPE_MAP : List (List Nat × List Nat) :=
  [(S "jpg", S "image"), (S "jpeg", S "image"), (S "png", S "image"),
   (S "webp", S "image"), (S "mp4", S "video"), (S "pdf", S "document"),
   (S "doc", S "document"), (S "docx", S "document")]

/-- Assoc-list lookup with list keys (Python `dict.get`). -/
def lookupAssoc {β : Type} (m : List (List Nat × β)) (k : List Nat) : Option β :=
  match m with
  | [] => none
  | (k0, v) :: rest => if k0 = k then some v else lookupAssoc rest k

/-- The media-detection block of `parse_whatsapp_chat` (main.py lines
349-396): run `MEDIA_PATTERN` on the cleaned message text; on a match,
derive the media type from group 1 (omitted keyword) or group 3 (attached
file extension), lower-case it, map it through `VALID_MEDIA_TYPES` /
`MEDIA_TYPE_MAP` (unknown values map to `"unknown"`), create a
`MediaItem` with reactions 0, and replace the message by the
`[Media: TYPE] shared by SENDER` placeholder.  Returns the optional item
and the (possibly rewritten) message text. -/
def processMedia (ts snd msg : List Nat) : Option MediaItem' × List Nat :=
  match media_pattern_match msg with
  | none => (none, msg)
  | some (g1, g3) =>
    let mediaType : Option (List Nat) :=
      match g1 with
      | some t => some (pyLower t)
      | none =>
        match g3 with
        | some e => some (pyLower e)
        | none => none
    let normalized : List Nat :=
      match mediaType with
      | some t => pyLower t
      | none => []
    let mapped : List Nat :=
      if VALID_MEDIA_TYPES.contains normalized then normalized
      else
        match lookupAssoc MEDIA_TYPE_MAP normalized with
        | some m => m
        | none => S "unknown"
    (some ⟨mapped, snd, ts, 0⟩,
      S "[Media: " ++ pyUpper mapped ++ S "] shared by " ++ snd)

/-- Apply a function to the last element of a list (Python
`messages[-1]`; the empty case cannot arise, because a pending
continuation exists only when at least one record does). -/
def updateLast (f : MsgRec → MsgRec) : List MsgRec → List MsgRec
  | [] => []
  | [r] => [f r]
  | r :: rest => r :: updateLast f rest

/-- The `if current_message:` block (main.py lines 339-342): append the
cleaned pending continuation to the last record's text after a newline,
then reset the continuation. -/
def flushCurrent (st : ParseState) : ParseState :=
  if st.current = [] then st
  else
    { st with
      messages := updateLast
        (fun r => { r with message := r.message ++ [10] ++ clean_message st.current })
        st.messages,
      current := [] }

/-- Body executed when one grammar matches (main.py lines 338-429): flush
the pending continuation, clean sender and message, run media detection
(possibly appending a `MediaItem` and rewriting the message), skip the
line when the message matches a system pattern (`continue` to the next
grammar), otherwise parse the bracket-stripped timestamp against the
format list; on failure `continue` to the next grammar, on success append
the stripped record and stop.  The boolean reports whether a record was
appended (`matched = True`). -/
def handleMatch (st : ParseState) (ts snd0 msg0 : List Nat) : ParseState × Bool :=
  let st1 := flushCurrent st
  let snd := clean_message snd0
  let pm := processMedia ts snd (clean_message msg0)
  let msg := pm.2
  let st2 :=
    match pm.1 with
    | some item => { st1 with media_items := st1.media_items ++ [item] }
    | none => st1
  if system_message_match msg then (st2, false)
  else
    match strptime_list (stripBrackets ts) with
    | none => (st2, false)
    | some dt =>
      ({ st2 with messages := st2.messages ++ [⟨dt, pyStrip snd, pyStrip msg⟩] }, true)

/-- Attempt `WHATSAPP_PATTERNS[2]` (the last grammar; a fall-through
leaves `matched` false). -/
def tryFrom2 (st : ParseState) (cl : List Nat) : ParseState × Bool :=
  match pattern2_match cl with
  | none => (st, false)
  | some (ts, snd, msg) => handleMatch st ts snd msg

/-- Attempt `WHATSAPP_PATTERNS[1]`, falling through to pattern 2. -/
def tryFrom1 (st : ParseState) (cl : List Nat) : ParseState × Bool :=
  match pattern1_match cl with
  | none => tryFrom2 st cl
  | some (ts, snd, msg) =>
    match handleMatch st ts snd msg with
    | (st1, true) => (st1, true)
    | (st1, false) => tryFrom2 st1 cl

/-- Attempt the grammars of `WHATSAPP_PATTERNS` in their fixed priority
order (main.py lines 336-429). -/
def tryFrom0 (st : ParseState) (cl : List Nat) : ParseState × Bool :=
  match pattern0_match cl with
  | none => tryFrom1 st cl
  | some (ts, snd, msg) =>
    match handleMatch st ts snd msg with
    | (st1, true) => (st1, true)
    | (st1, false) => tryFrom1 st1 cl

/-- One iteration of the line loop of `parse_whatsapp_chat` (main.py
lines 333-432): clean the line, try the grammars; if no grammar produced
a record and the raw line has non-whitespace content and at least one
record exists, append the raw line to the pending continuation after a
space. -/
def lineStep (st : ParseState) (line : List Nat) : ParseState :=
  let r := tryFrom0 st (clean_message line)
  if ¬ r.2 ∧ pyStrip line ≠ [] ∧ r.1.messages ≠ [] then
    { r.1 with current := r.1.current ++ [32] ++ line }
  else r.1

/-- Python `content.split('\\n')`: split at every newline, keeping empty
pieces. -/
def splitLines : List Nat → List (List Nat)
  | [] => [[]]
  | c :: rest =>
    if c = 10 then [] :: splitLines rest
    else
      match splitLines rest with
      | h :: t => (c :: h) :: t
      | [] => [[c]]

/-- `parse_whatsapp_chat` (main.py lines 320-444): fold the line loop over
the split content starting from an empty state; a never-flushed pending
continuation is discarded at end of input; when no record was produced the
function returns an empty frame AND an empty media list. -/
def parse_whatsapp_chat (content : List Nat) : List MsgRec × List MediaItem' :=
  let st := (splitLines content).foldl lineStep ⟨[], [], []⟩
  if st.messages = [] then ([], []) else (st.messages, st.media_items)

example :
    parse_whatsapp_chat (S "[24/08/2024, 21:35:29] Alice: hello there") =
      ([⟨⟨2024, 8, 24, 21, 35, 29⟩, S "Alice", S "hello there"⟩], []) := by decide

/-- `COMMON_WORDS` (main.py lines 264-282). -/
def COMMON_WORDS : List (List Nat) :=
  [S "a", S "about", S "above", S "after", S "again", S "all", S "am", S "an",
   S "and", S "any", S "anybody", S "anyone", S "anything", S "are", S "as",
   S "at", S "be", S "because", S "been", S "being", S "both", S "but", S "by",
   S "can", S "come", S "could", S "day", S "did", S "do", S "each", S "either",
   S "every", S "everybody", S "everyone", S "everything", S "few", S "for",
   S "from", S "get", S "give", S "go", S "good", S "had", S "has", S "have",
   S "he", S "her", S "here", S "him", S "his", S "how", S "i", S "if", S "in",
   S "into", S "is", S "it", S "just", S "know", S "like", S "look", S "make",
   S "many", S "maybe", S "me", S "mine", S "more", S "most", S "much",
   S "must", S "my", S "myself", S "new", S "no", S "nobody", S "none",
   S "not", S "nothing", S "now", S "nowhere", S "of", S "on", S "once",
   S "one", S "only", S "or", S "our", S "ours", S "ourselves", S "out",
   S "over", S "people", S "perhaps", S "same", S "say", S "see", S "she",
   S "should", S "so", S "some", S "somebody", S "someone", S "something",
   S "somewhere", S "stuff", S "such", S "take", S "than", S "that", S "the",
   S "their", S "theirs", S "them", S "themself", S "themselves", S "then",
   S "there", S "therefore", S "these", S "they", S "thing", S "things",
   S "think", S "this", S "those", S "thus", S "time", S "to", S "two",
   S "up", S "us", S "use", S "using", S "very", S "want", S "was", S "way",
   S "we", S "well", S "were", S "what", S "when", S "which", S "who",
   S "will", S "with", S "would", S "year", S "you", S "your", S "yours",
   S "yourself", S "yourselves"]

/-- The character class of `EMOJI_PATTERN = re.compile(r'[\\U0001F300-\\U0001F9FF]')`
(main.py line 203). -/
def emojiRange (c : Nat) : Bool := decide (0x1F300 ≤ c ∧ c ≤ 0x1F9FF)

/-- `len(EMOJI_PATTERN.findall(s))`: number of characters in the emoji
class. -/
def emoji_count (s : List Nat) : Nat := (s.filter emojiRange).length

/-- `WORD_PATTERN.findall` (`\\w+`, main.py line 204): the maximal runs of
word characters, left to right — the pieces obtained by cutting at every
non-word character. -/
def word_findall (l : List Nat) : List (List Nat) :=
  splitAux (fun c => ¬ isWordCp c) [] l

/-- `string.punctuation` as a character class. -/
def isPunct (c : Nat) : Bool :=
  decide ((33 ≤ c ∧ c ≤ 47) ∨ (58 ≤ c ∧ c ≤ 64) ∨ (91 ≤ c ∧ c ≤ 96) ∨
    (123 ≤ c ∧ c ≤ 126))

/-- `normalize_word` (main.py lines 291-301): lower-case, strip punctuation
from both ends, remove a trailing possessive `\u0027s`, then remove one
trailing contraction suffix `\u0027(d|m|ve|re|ll|t)` (the end-anchored
alternatives are mutually exclusive as suffixes, so suffix tests express
the regex substitution). -/
def normalize_word (word : List Nat) : List Nat :=
  let w := pyLower word
  let w := ((w.dropWhile isPunct).reverse.dropWhile isPunct).reverse
  let w := if (S "\u0027s").isSuffixOf w then w.take (w.length - 2) else w
  if (S "\u0027d").isSuffixOf w ∨ (S "\u0027m").isSuffixOf w ∨
     (S "\u0027t").isSuffixOf w then w.take (w.length - 2)
  else if (S "\u0027ve").isSuffixOf w ∨ (S "\u0027re").isSuffixOf w ∨
     (S "\u0027ll").isSuffixOf w then w.take (w.length - 3)
  else w

/-- `process_message_stats` (main.py lines 284-318): emoji characters, the
emoji counter, and the counter of normalized words that survive the
length/stop-word/digit/url filters. -/
def process_message_stats (message : List Nat) :
    List Nat × List (Nat × Nat) × List (List Nat × Nat) :=
  let emojis := message.filter emojiRange
  let words := (word_findall message).filterMap (fun raw =>
    let nw := normalize_word raw
    if 3 < nw.length ∧ ¬ COMMON_WORDS.contains nw ∧
       ¬ (nw ≠ [] ∧ nw.all isDigitCp) ∧ ¬ isSubstr (S "http") nw
    then some nw else none)
  (emojis, counterOf emojis, counterOf words)

example : ((process_message_stats (S "image omitted")).2.2).map (fun p => p.1) =
    [S "image", S "omitted"] := by decide

/-- `THREAD_WINDOW = pd.Timedelta(hours=4)` (main.py line 755), in
seconds. -/
def THREAD_WINDOW : Int := 14400

/-- `MessageThread` state (main.py lines 757-762): seed message, seed
timestamp (in epoch seconds), accumulated replies, accumulated emoji
reactions. -/
structure MessageThread where
  original_message : List Nat
  start_time : Int
  messages : List (List Nat)
  reactions : Nat
deriving DecidableEq, Repr

/-- `MessageThread.__init__`: empty reply list, reactions seeded with the
seed message's emoji count. -/
def MessageThread.init (message : List Nat) (t : Int) : MessageThread :=
  ⟨message, t, [], emoji_count message⟩

/-- `MessageThread.is_active` (main.py lines 764-765). -/
def MessageThread.is_active (th : MessageThread) (t : Int) : Bool :=
  decide (t - th.start_time ≤ THREAD_WINDOW)

/-- `MessageThread.is_related` (main.py lines 767-789): direct-reply
indicators, then a shared-token heuristic over `set` intersections, then
the question/short-answer heuristic. -/
def MessageThread.is_related (th : MessageThread) (message : List Nat) : Bool :=
  let origLower := pyLower th.original_message
  let msgLower := pyLower message
  if (S "@").isPrefixOf message || isSubstr (S "replied to") msgLower ||
     isSubstr origLower msgLower then true
  else
    let common := (dedup (pySplit origLower)).filter
      (fun w => (pySplit msgLower).contains w)
    if 2 ≤ common.length ∧ ¬ common.all (fun w => COMMON_WORDS.contains w) then
      true
    else if isSubstr (S "?") th.original_message ∧
        (pySplit message).length ≤ 10 then true
    else false

/-- `MessageThread.add_message` (main.py lines 791-793). -/
def MessageThread.add_message (th : MessageThread) (message : List Nat) :
    MessageThread :=
  { th with messages := th.messages ++ [message],
            reactions := th.reactions + emoji_count message }

/-- `MessageThread.is_significant` (main.py lines 795-796). -/
def MessageThread.is_significant (th : MessageThread) : Bool :=
  decide (2 ≤ th.messages.length)

/-- `ViralMessage` (main.py lines 135-139). -/
structure ViralMessage where
  message : List Nat
  replies : Nat
  reactions : Nat
  thread : List (List Nat)
deriving DecidableEq, Repr

/-- `MessageThread.to_viral_message` (main.py lines 798-804). -/
def MessageThread.to_viral_message (th : MessageThread) : ViralMessage :=
  ⟨th.original_message, th.messages.length, th.reactions, th.messages⟩

/-- One iteration of the loop in `process_message_threads` (main.py lines
810-829): skip system and short messages; join the active thread when
both window and relatedness tests pass; otherwise emit the active thread
when significant and reseed. -/
def threadStep (acc : List ViralMessage × Option MessageThread)
    (row : List Nat × Int) : List ViralMessage × Option MessageThread :=
  let message := row.1
  let t := row.2
  if system_message_match message ∨ (pySplit message).length < 3 then acc
  else
    match acc.2 with
    | some th =>
      if th.is_active t ∧ th.is_related message then
        (acc.1, some (th.add_message message))
      else
        ((if th.is_significant then acc.1 ++ [th.to_viral_message] else acc.1),
          some (MessageThread.init message t))
    | none => (acc.1, some (MessageThread.init message t))

/-- Stable insertion of `x` after all accumulated elements of greater or
equal key: folding this over a list yields the same result as Python's
stable `sorted(..., reverse=True)` for this total preorder. -/
def insertDescBy {α : Type} (key : α → Nat) (x : α) : List α → List α
  | [] => [x]
  | y :: ys => if key y < key x then x :: y :: ys else y :: insertDescBy key x ys

/-- Stable descending sort by a numeric key. -/
def sortDescBy {α : Type} (key : α → Nat) (l : List α) : List α :=
  l.foldl (fun acc x => insertDescBy key x acc) []

/-- `process_message_threads` (main.py lines 806-840): fold the thread
state machine over the timestamp-ordered rows, close the final thread
under the same significance rule, sort descending by engagement
(replies + reactions) and keep the top 3. -/
def process_message_threads (rows : List (List Nat × Int)) : List ViralMessage :=
  let p := rows.foldl threadStep ([], none)
  let viral :=
    match p.2 with
    | some th => if th.is_significant then p.1 ++ [th.to_viral_message] else p.1
    | none => p.1
  (sortDescBy (fun v => v.replies + v.reactions) viral).take 3

/-- Days from year 1 to the start of year `y` (proleptic Gregorian). -/
def daysBeforeYear (y : Nat) : Nat :=
  365 * (y - 1) + (y - 1) / 4 - (y - 1) / 100 + (y - 1) / 400

/-- Days from the start of the year to the start of month `m`. -/
def daysBeforeMonth (y m : Nat) : Nat :=
  ((List.range (m - 1)).map (fun i => daysInMonth y (i + 1))).sum

/-- A parsed timestamp as a linear count of seconds; `pd.Timestamp`
subtraction compared against a `Timedelta` is faithfully represented by
integer differences of this count (no time zones or leap seconds). -/
def tsSeconds (dt : PDateTime) : Int :=
  ((daysBeforeYear dt.year + daysBeforeMonth dt.year dt.month +
    (dt.day - 1)) * 86400 + dt.hour * 3600 + dt.minute * 60 + dt.second : Nat)

/-- Stable ascending insertion by timestamp. -/
def insertAscByTs (x : List Nat × Int) :
    List (List Nat × Int) → List (List Nat × Int)
  | [] => [x]
  | y :: ys => if x.2 < y.2 then x :: y :: ys else y :: insertAscByTs x ys

/-- Stable ascending sort by timestamp, modelling
`df.sort_values('timestamp')` (main.py line 751). -/
def sortAscByTs (l : List (List Nat × Int)) : List (List Nat × Int) :=
  l.foldl (fun acc x => insertAscByTs x acc) []

/-- The viral-message stage of `analyze_chat` (main.py lines 751, 842):
sort the parsed records by timestamp and run `process_message_threads`
over their (message, timestamp) rows. -/
def threads_of_chat (content : List Nat) : List ViralMessage :=
  process_message_threads (sortAscByTs
    (((parse_whatsapp_chat content).1).map
      (fun r => (r.message, tsSeconds r.timestamp))))

/-- Lookup in the module-level `sentiment_cache`, keyed by the filtered
batch (standing for `hash(tuple(filtered_messages))`; hash collisions are
outside the model). -/
def lookupBatch (cache : List (List (List Nat) × ℚ)) (k : List (List Nat)) :
    Option ℚ :=
  match cache with
  | [] => none
  | (k0, v) :: rest => if k0 = k then some v else lookupBatch rest k

/-- Stable ascending insertion of a natural number (for
`sorted(daily_messages.keys())`). -/
def insertAscNat (x : Nat) : List Nat → List Nat
  | [] => [x]
  | y :: ys => if x < y then x :: y :: ys else y :: insertAscNat x ys

/-- `analyze_sentiment_batch` (main.py lines 546-579).  The remote
sentiment collaborator is a parameter returning `some score` on success
and `none` on a connection/timeout/value error; scores are rationals (the
order-theoretic content of Python floats).  The function filters out
media-placeholder messages, short-circuits an empty filtered batch to the
neutral score 0.0 without calling the collaborator, consults the
module-level `sentiment_cache` (modelled as an association list keyed by
the filtered batch, standing for `hash(tuple(filtered_messages))`), clamps
a successful remote score into [-1, 1] and caches it, and absorbs a
remote failure into the neutral score 0.0.  Returns
(score, updated cache, whether the remote collaborator was invoked).
First, the media filter of lines 549-552. -/
def filterMediaMsgs (batch : List (List Nat)) : List (List Nat) :=
  batch.filter
    (fun m => ¬ ((S "[Media:").isPrefixOf m ∨ (media_pattern_match m).isSome))

/-- Body of `analyze_sentiment_batch` after the media filter. -/
def analyze_sentiment_batch (remote : List (List Nat) → Option ℚ)
    (cache : List (List (List Nat) × ℚ)) (batch : List (List Nat)) :
    ℚ × List (List (List Nat) × ℚ) × Bool :=
  let filtered := filterMediaMsgs batch
  if filtered = [] then (0, cache, false)
  else
    match lookupBatch cache filtered with
    | some s => (s, cache, false)
    | none =>
      match remote filtered with
      | some sc => (max (min sc 1) (-1), (filtered, max (min sc 1) (-1)) :: cache, true)
      | none => (0, cache, true)

/-- `SentimentData` (main.py lines 130-133); the date is an ordinal (the
ISO string `str(date)` is order-isomorphic to it). -/
structure SentimentData where
  date : Nat
  sentiment : ℚ
  messages : List (List Nat)
deriving DecidableEq, Repr

/-- Group sorted dates into consecutive groups of at most 3 (main.py
lines 587-596). -/
def chunk3 : List Nat → List (List Nat)
  | [] => []
  | [a] => [[a]]
  | [a, b] => [[a, b]]
  | a :: b :: c :: rest => [a, b, c] :: chunk3 rest

/-- `daily_messages[d]` dictionary access for the day-bucket map. -/
def lookupDay (daily : List (Nat × List (List Nat))) (d : Nat) : List (List Nat) :=
  match daily with
  | [] => []
  | (k, v) :: rest => if k = d then v else lookupDay rest d

/-- `process_date_group` (main.py lines 598-629), sequentialised (the
task awaits only the batch scorer, here the pure parameter `sent`): per
date take a 5-point sample when the day has more than 5 messages,
otherwise all of it; once the running sample reaches 15 messages, score
it and attribute the score to every group date up to the current one
(without deduplication); after the loop, score any remaining sample and
attribute it to the group dates not yet attributed. -/
def process_date_group (sent : List (List Nat) → ℚ)
    (daily : List (Nat × List (List Nat))) (dates : List Nat) :
    List (Nat × ℚ × List (List Nat)) :=
  let p := dates.foldl (fun (acc : List (List Nat) × List (Nat × ℚ × List (List Nat))) date =>
    let day := lookupDay daily date
    let gm := acc.1 ++ (if 5 < day.length then
        [day.getD 0 [], day.getD (day.length / 4) [], day.getD (day.length / 2) [],
         day.getD (3 * day.length / 4) [], day.getD (day.length - 1) []]
      else day)
    if 15 ≤ gm.length then
      let s := sent gm
      ([], acc.2 ++ (dates.filter (fun d => d ≤ date)).map
        (fun d => (d, s, lookupDay daily d)))
    else (gm, acc.2)) ([], [])
  if p.1 ≠ [] then
    let s := sent p.1
    p.2 ++ (dates.filter (fun d => ¬ p.2.any (fun r => r.1 = d))).map
      (fun d => (d, s, lookupDay daily d))
  else p.2

/-- Stable ascending insertion by date. -/
def insertAscByDate (x : SentimentData) : List SentimentData → List SentimentData
  | [] => [x]
  | y :: ys => if x.date < y.date then x :: y :: ys else y :: insertAscByDate x ys

/-- Stable ascending sort by date, modelling
`sorted(sentiment_data, key=lambda x: x.date)`. -/
def sortAscByDate (l : List SentimentData) : List SentimentData :=
  l.foldl (fun acc x => insertAscByDate x acc) []

/-- `analyze_sentiment_parallel` (main.py lines 581-657), sequentialised:
`asyncio.gather` preserves task order and each task is deterministic
given the batch scorer `sent`, so the gathered `results` equal the list
of per-group results in group order.  The function then runs BOTH
flatten loops of the source: the first (lines 636-642) appends a
`SentimentData` for every attribution with the top-3 message sample, and
the second (lines 644-654) appends a further `SentimentData` per
first-seen date with the top-2 sample; finally the list is sorted by
date.  The day-bucket map is a dict, so its keys are distinct. -/
def analyze_sentiment_parallel (sent : List (List Nat) → ℚ)
    (daily : List (Nat × List (List Nat))) : List SentimentData :=
  let dates := (daily.map (fun p => p.1)).foldl
    (fun acc d => insertAscNat d acc) []
  let results := (chunk3 dates).map (process_date_group sent daily)
  let sd1 := (results.map (fun gr =>
    gr.map (fun r => SentimentData.mk r.1 r.2.1 (r.2.2.take 3)))).flatten
  let sd2 := results.foldl (fun (acc : List SentimentData × List Nat) gr =>
    gr.foldl (fun (acc2 : List SentimentData × List Nat) r =>
      if acc2.2.contains r.1 then acc2
      else (acc2.1 ++ [SentimentData.mk r.1 r.2.1 (r.2.2.take 2)], acc2.2 ++ [r.1]))
      acc) (sd1, [])
  sortAscByDate sd2.1

/-- `calculate_md5`, `get_cached_result`, `save_to_cache` and the cache
short-circuit of `analyze_chat` (main.py lines 175-200 and 666-680, 927),
modelled over an abstract digest function, an abstract rest-of-pipeline
(which subsumes parsing, all analytics and every remote collaborator
call), and the cache directory as an association list from digests to
summaries (the JSON round-trip of a stored summary is the identity).
Returns (response, updated store, whether the pipeline — and hence any
remote collaborator — ran). -/
def analyze_chat_cached {α : Type} (digest : List Nat → List Nat)
    (pipeline : List Nat → α) (store : List (List Nat × α)) (content : List Nat) :
    α × List (List Nat × α) × Bool :=
  match lookupAssoc store (digest content) with
  | some cached => (cached, store, false)
  | none => (pipeline content, (digest content, pipeline content) :: store, true)

/-- C1: the claim asserts that `clean_message` removes, among others, the
zero-width space, zero-width joiner, zero-width non-joiner and byte-order
mark; the compiled removal class contains only U+200E, U+200F and
U+202A-U+202F, so those four characters survive — here on the repository's
own test input from `test_system_messages.py` (whose `test_edge_cases`
expects them removed). -/
theorem C1_clean_message_keeps_zero_width :
    0x200b ∈ clean_message (S "A\u200Bl\u200Ci\u200Dce created this group") ∧
    0x200c ∈ clean_message (S "A\u200Bl\u200Ci\u200Dce created this group") ∧
    0x200d ∈ clean_message (S "A\u200Bl\u200Ci\u200Dce created this group") ∧
    0xfeff ∈ clean_message (S "\uFEFFhello") := by decide

/-- C2: the claim asserts at most one sentiment entry per calendar date;
on a single-date input the two flatten loops of
`analyze_sentiment_parallel` each append an entry for that date, so the
returned list carries the same date twice (for any batch scorer; here the
constant 0). -/
theorem C2_sentiment_duplicate_dates :
    ((analyze_sentiment_parallel (fun _ => 0) [(0, [S "hi"])]).map
      (fun d => d.date)) = [0, 0] := by decide

/-- C3: the claim asserts that the line
`[24/08/2024, 21:36:00] Carol: image omitted` produces one image
MediaItem and that its text stays out of the word counters; in the code
`MEDIA_PATTERN` is matched against the extracted message text
`image omitted`, whose mandatory `(?:.*?):` colon cannot match, so no
MediaItem is produced, the record keeps the raw text, and the words
`image` and `omitted` enter the word counter. -/
theorem C3_media_omitted_line_not_detected :
    (parse_whatsapp_chat (S "[24/08/2024, 21:36:00] Carol: image omitted")).2 = [] ∧
    (parse_whatsapp_chat (S "[24/08/2024, 21:36:00] Carol: image omitted")).1.map
      (fun r => r.message) = [S "image omitted"] ∧
    media_pattern_match (S "image omitted") = none ∧
    ((process_message_stats (S "image omitted")).2.2).map (fun p => p.1) =
      [S "image", S "omitted"] := by decide

/-- C4 counterexample: on the two-line input of the claim the thread
reconstructor emits no thread at all (not exactly one with 2 members):
the candidate seed `hello there` has fewer than 3 tokens and is skipped,
and `hello there too` seeds a thread that never gains a member. -/
theorem C4_counterexample_no_thread :
    threads_of_chat
      (S "[24/08/2024, 21:35:29] Alice: hello there\n[24/08/2024, 21:35:40] Bob: hello there too") =
    [] := by decide

/-- C4 amended: the two-line input yields two content Messages with
sender set {Alice, Bob}, zero media items and zero system messages, and
the thread reconstructor emits zero Threads (the 2-token message
`hello there` is skipped by the fewer-than-3-tokens rule, so no thread
ever reaches 2 members). -/
theorem C4_amended_two_messages_zero_threads :
    ((parse_whatsapp_chat
      (S "[24/08/2024, 21:35:29] Alice: hello there\n[24/08/2024, 21:35:40] Bob: hello there too")).1.map
        (fun r => r.sender) = [S "Alice", S "Bob"]) ∧
    ((parse_whatsapp_chat
      (S "[24/08/2024, 21:35:29] Alice: hello there\n[24/08/2024, 21:35:40] Bob: hello there too")).2 = []) ∧
    ((parse_whatsapp_chat
      (S "[24/08/2024, 21:35:29] Alice: hello there\n[24/08/2024, 21:35:40] Bob: hello there too")).1.filter
        (fun r => system_message_match r.message) = []) ∧
    (threads_of_chat
      (S "[24/08/2024, 21:35:29] Alice: hello there\n[24/08/2024, 21:35:40] Bob: hello there too") =
      []) := by decide

/-- C9: cache round-trip of `analyze_chat`: after any first request, a
second request with byte-identical content returns the same summary, the
store unchanged, and the pipeline flag false — the parsing/analytics
pipeline (and with it every remote collaborator call) is skipped. -/
theorem C9_cache_round_trip {α : Type} (digest : List Nat → List Nat)
    (pipeline : List Nat → α) (store : List (List Nat × α)) (content : List Nat) :
    analyze_chat_cached digest pipeline
        (analyze_chat_cached digest pipeline store content).2.1 content =
      ((analyze_chat_cached digest pipeline store content).1,
       (analyze_chat_cached digest pipeline store content).2.1, false) := by
  unfold analyze_chat_cached
  cases h : lookupAssoc store (digest content) with
  | some cached => simp [h]
  | none => simp [h, lookupAssoc]

/-- C10: media detection runs before the system check and before
timestamp parsing, so the grammar-matching line
`[99/99/2024, 21:36:00] Carol: x: image omitted` (media pattern matched
through the interior colon, timestamp rejected by every format) appends
an image MediaItem while producing no Message: the parse output has one
media item but only the one Message of the first line, which is not a
media placeholder — the reported media total (`len(media_items)`)
exceeds the number of media Messages. -/
theorem C10_media_item_without_message :
    ((parse_whatsapp_chat
      (S "[24/08/2024, 21:35:29] Alice: hello there\n[99/99/2024, 21:36:00] Carol: x: image omitted")).2.map
        (fun m => m.type) = [S "image"]) ∧
    ((parse_whatsapp_chat
      (S "[24/08/2024, 21:35:29] Alice: hello there\n[99/99/2024, 21:36:00] Carol: x: image omitted")).1.map
        (fun r => r.message) = [S "hello there"]) ∧
    ((parse_whatsapp_chat
      (S "[24/08/2024, 21:35:29] Alice: hello there\n[99/99/2024, 21:36:00] Carol: x: image omitted")).1.filter
        (fun r => (S "[Media:").isPrefixOf r.message) = []) := by decide

/-- At least one of the three grammars matches the cleaned line. -/
def anyGrammarMatches (cl : List Nat) : Bool :=
  (pattern0_match cl).isSome || (pattern1_match cl).isSome ||
  (pattern2_match cl).isSome

/-- For one grammar's match result: if it matched, its timestamp text is
accepted by none of the format templates. -/
def tsFailOf (m : Option (List Nat × List Nat × List Nat)) : Bool :=
  match m with
  | none => true
  | some (ts, _, _) => (strptime_list (stripBrackets ts)).isNone

/-- Every grammar that matches the cleaned line has an unparsable
timestamp. -/
def allMatchesTsFail (cl : List Nat) : Bool :=
  tsFailOf (pattern0_match cl) && tsFailOf (pattern1_match cl) &&
  tsFailOf (pattern2_match cl)

/-- For one grammar's match result: if it matched, the classification-time
message text (after cleaning and the media rewrite) matches a
system-notice pattern. -/
def sysOf (m : Option (List Nat × List Nat × List Nat)) : Bool :=
  match m with
  | none => true
  | some (ts, snd, msg) =>
    system_message_match (processMedia ts (clean_message snd) (clean_message msg)).2

/-- Every grammar that matches the cleaned line yields a system-notice
message. -/
def allMatchesSystem (cl : List Nat) : Bool :=
  sysOf (pattern0_match cl) && sysOf (pattern1_match cl) &&
  sysOf (pattern2_match cl)

/-- When the matched line is a system notice or its timestamp is
unparsable, `handleMatch` appends no record, reports no match, and (when
no continuation was pending) leaves the record list and the continuation
unchanged. -/
theorem handleMatch_no_record (st : ParseState) (ts snd msg : List Nat)
    (hcur : st.current = [])
    (h : system_message_match (processMedia ts (clean_message snd)
          (clean_message msg)).2 = true ∨
        strptime_list (stripBrackets ts) = none) :
    (handleMatch st ts snd msg).2 = false ∧
    (handleMatch st ts snd msg).1.messages = st.messages ∧
    (handleMatch st ts snd msg).1.current = [] := by
  have hflush : flushCurrent st = st := by simp [flushCurrent, hcur]
  unfold handleMatch
  rw [hflush]
  rcases hsys : system_message_match
      (processMedia ts (clean_message snd) (clean_message msg)).2 with _ | _
  · have hts : strptime_list (stripBrackets ts) = none := by
      rcases h with h | h
      · rw [hsys] at h; cases h
      · exact h
    rcases hpm : (processMedia ts (clean_message snd) (clean_message msg)).1
        with _ | item <;>
      simp [hpm, hsys, hts, hcur]
  · rcases hpm : (processMedia ts (clean_message snd) (clean_message msg)).1
        with _ | item <;>
      simp [hpm, hsys, hcur]

/-- Fall-through behaviour of the last grammar under the no-record
hypotheses. -/
theorem tryFrom2_no_record (st : ParseState) (cl : List Nat)
    (hcur : st.current = [])
    (H2 : ∀ ts snd msg, pattern2_match cl = some (ts, snd, msg) →
      system_message_match (processMedia ts (clean_message snd)
        (clean_message msg)).2 = true ∨
      strptime_list (stripBrackets ts) = none) :
    (tryFrom2 st cl).2 = false ∧
    (tryFrom2 st cl).1.messages = st.messages ∧
    (tryFrom2 st cl).1.current = [] := by
  unfold tryFrom2
  rcases hp : pattern2_match cl with _ | ⟨ts, snd, msg⟩
  · exact ⟨rfl, rfl, hcur⟩
  · exact handleMatch_no_record st ts snd msg hcur (H2 ts snd msg hp)

/-- Fall-through behaviour of the second grammar under the no-record
hypotheses. -/
theorem tryFrom1_no_record (st : ParseState) (cl : List Nat)
    (hcur : st.current = [])
    (H1 : ∀ ts snd msg, pattern1_match cl = some (ts, snd, msg) →
      system_message_match (processMedia ts (clean_message snd)
        (clean_message msg)).2 = true ∨
      strptime_list (stripBrackets ts) = none)
    (H2 : ∀ ts snd msg, pattern2_match cl = some (ts, snd, msg) →
      system_message_match (processMedia ts (clean_message snd)
        (clean_message msg)).2 = true ∨
      strptime_list (stripBrackets ts) = none) :
    (tryFrom1 st cl).2 = false ∧
    (tryFrom1 st cl).1.messages = st.messages ∧
    (tryFrom1 st cl).1.current = [] := by
  unfold tryFrom1
  rcases hp : pattern1_match cl with _ | ⟨ts, snd, msg⟩
  · exact tryFrom2_no_record st cl hcur H2
  · obtain ⟨h2, hmsgs, hcur1⟩ :=
      handleMatch_no_record st ts snd msg hcur (H1 ts snd msg hp)
    have heq : handleMatch st ts snd msg = ((handleMatch st ts snd msg).1, false) := by
      rw [← h2]
    dsimp only
    rw [heq]
    obtain ⟨h2b, hmsgs2, hcur2⟩ :=
      tryFrom2_no_record (handleMatch st ts snd msg).1 cl hcur1 H2
    exact ⟨h2b, by rw [hmsgs2, hmsgs], hcur2⟩

/-- Fall-through behaviour of the whole grammar cascade under the
no-record hypotheses. -/
theorem tryFrom0_no_record (st : ParseState) (cl : List Nat)
    (hcur : st.current = [])
    (H0 : ∀ ts snd msg, pattern0_match cl = some (ts, snd, msg) →
      system_message_match (processMedia ts (clean_message snd)
        (clean_message msg)).2 = true ∨
      strptime_list (stripBrackets ts) = none)
    (H1 : ∀ ts snd msg, pattern1_match cl = some (ts, snd, msg) →
      system_message_match (processMedia ts (clean_message snd)
        (clean_message msg)).2 = true ∨
      strptime_list (stripBrackets ts) = none)
    (H2 : ∀ ts snd msg, pattern2_match cl = some (ts, snd, msg) →
      system_message_match (processMedia ts (clean_message snd)
        (clean_message msg)).2 = true ∨
      strptime_list (stripBrackets ts) = none) :
    (tryFrom0 st cl).2 = false ∧
    (tryFrom0 st cl).1.messages = st.messages ∧
    (tryFrom0 st cl).1.current = [] := by
  unfold tryFrom0
  rcases hp : pattern0_match cl with _ | ⟨ts, snd, msg⟩
  · exact tryFrom1_no_record st cl hcur H1 H2
  · obtain ⟨h2, hmsgs, hcur1⟩ :=
      handleMatch_no_record st ts snd msg hcur (H0 ts snd msg hp)
    have heq : handleMatch st ts snd msg = ((handleMatch st ts snd msg).1, false) := by
      rw [← h2]
    dsimp only
    rw [heq]
    obtain ⟨h2b, hmsgs2, hcur2⟩ :=
      tryFrom1_no_record (handleMatch st ts snd msg).1 cl hcur1 H1 H2
    exact ⟨h2b, by rw [hmsgs2, hmsgs], hcur2⟩

/-- Common conclusion of the two step theorems: under the no-record
hypotheses the line creates no Message, the existing records are
untouched, and the raw line is retained as the pending continuation
exactly when records exist and the line has non-whitespace content. -/
theorem lineStep_no_record (st : ParseState) (line : List Nat)
    (hcur : st.current = [])
    (H0 : ∀ ts snd msg, pattern0_match (clean_message line) = some (ts, snd, msg) →
      system_message_match (processMedia ts (clean_message snd)
        (clean_message msg)).2 = true ∨
      strptime_list (stripBrackets ts) = none)
    (H1 : ∀ ts snd msg, pattern1_match (clean_message line) = some (ts, snd, msg) →
      system_message_match (processMedia ts (clean_message snd)
        (clean_message msg)).2 = true ∨
      strptime_list (stripBrackets ts) = none)
    (H2 : ∀ ts snd msg, pattern2_match (clean_message line) = some (ts, snd, msg) →
      system_message_match (processMedia ts (clean_message snd)
        (clean_message msg)).2 = true ∨
      strptime_list (stripBrackets ts) = none) :
    (lineStep st line).messages = st.messages ∧
    (lineStep st line).current =
      (if st.messages ≠ [] ∧ pyStrip line ≠ [] then [32] ++ line else []) := by
  obtain ⟨h2, hmsgs, hcur1⟩ :=
    tryFrom0_no_record st (clean_message line) hcur H0 H1 H2
  unfold lineStep
  by_cases hm : st.messages = [] <;> by_cases hl : pyStrip line = [] <;>
    simp [h2, hmsgs, hcur1, hm, hl]

/-- C5 counterexample: the claim asserts that system-notice messages are
still present as records in the parsed Message sequence, so this
two-line input (one content line, one `This message was deleted` line)
would have to yield 2 records; the parser yields only the content
record — the system line is not retained. -/
theorem C5_counterexample_system_message_removed :
    ((parse_whatsapp_chat
      (S "[24/08/2024, 21:35:29] Alice: hello there\n[24/08/2024, 21:36:00] Bob: This message was deleted")).1.map
        (fun r => r.message) = [S "hello there"]) ∧
    (parse_whatsapp_chat
      (S "[24/08/2024, 21:35:29] Alice: hello there\n[24/08/2024, 21:36:00] Bob: This message was deleted")).1.length = 1 := by
  decide

/-- C5 amended: messages whose classification-time text matches a
system-notice pattern are excluded from the parsed Message sequence
itself — the parser appends no record for such a line (after flushing
any pending continuation, here assumed empty), so the total message
count excludes them and they are thereby absent from all downstream
analytics; the raw line is instead retained as a pending continuation
when prior records exist and the line has content. -/
theorem C5_amended_system_lines_excluded (st : ParseState) (line : List Nat)
    (hcur : st.current = [])
    (hmatch : anyGrammarMatches (clean_message line) = true)
    (hsys : allMatchesSystem (clean_message line) = true) :
    (lineStep st line).messages = st.messages ∧
    (lineStep st line).current =
      (if st.messages ≠ [] ∧ pyStrip line ≠ [] then [32] ++ line else []) := by
  have h3 := hsys
  unfold allMatchesSystem at h3
  rw [Bool.and_eq_true, Bool.and_eq_true] at h3
  obtain ⟨⟨t0, t1⟩, t2⟩ := h3
  refine lineStep_no_record st line hcur ?_ ?_ ?_
  · intro ts snd msg h
    left
    rw [h] at t0
    simpa [sysOf] using t0
  · intro ts snd msg h
    left
    rw [h] at t1
    simpa [sysOf] using t1
  · intro ts snd msg h
    left
    rw [h] at t2
    simpa [sysOf] using t2

/-- Concrete state for the C5 witness: one already-parsed record, no
pending continuation. -/
def c5State : ParseState :=
  ⟨[⟨⟨2024, 8, 24, 21, 35, 29⟩, S "Alice", S "hello there"⟩], [], []⟩

/-- Concrete system-notice line for the C5 witness. -/
def c5Line : List Nat := S "[24/08/2024, 21:36:00] Bob: This message was deleted"

/-- Witness for the C5 amended theorem at a concrete input. -/
theorem C5_amended_witness :
    anyGrammarMatches (clean_message c5Line) = true ∧
    allMatchesSystem (clean_message c5Line) = true ∧
    ((lineStep c5State c5Line).messages = c5State.messages ∧
     (lineStep c5State c5Line).current =
       (if c5State.messages ≠ [] ∧ pyStrip c5Line ≠ [] then [32] ++ c5Line
        else [])) :=
  ⟨by decide, by decide,
    C5_amended_system_lines_excluded c5State c5Line rfl (by decide) (by decide)⟩

/-- C6 counterexample: the claim asserts that a grammar-matching line
with unparsable timestamp is dropped entirely, leaving every
already-parsed record unchanged; on this three-line input the middle
line `[99/99/2024, 21:36:00] Carol: hi` (grammar matches, timestamp
rejected by every template) is instead absorbed into the first record's
text as a continuation. -/
theorem C6_counterexample_line_absorbed :
    ((parse_whatsapp_chat
      (S "[24/08/2024, 21:35:29] Alice: hello there\n[99/99/2024, 21:36:00] Carol: hi\n[24/08/2024, 21:37:00] Dave: ok then")).1.map
        (fun r => r.message)) =
    [S "hello there\n[99/99/2024, 21:36:00] Carol: hi", S "ok then"] := by
  decide

/-- C6 amended: a grammar-matching line whose timestamp text is accepted
by none of the format templates creates no Message of its own (after
flushing any pending continuation, here assumed empty) and parsing
continues; but the line is not dropped entirely — when prior records
exist and the line has content, its raw text is retained as the pending
continuation, to be appended to the previous record at the next
successfully parsed line (or discarded at end of input). -/
theorem C6_amended_unparsable_timestamp_no_record (st : ParseState)
    (line : List Nat) (hcur : st.current = [])
    (hmatch : anyGrammarMatches (clean_message line) = true)
    (hts : allMatchesTsFail (clean_message line) = true) :
    (lineStep st line).messages = st.messages ∧
    (lineStep st line).current =
      (if st.messages ≠ [] ∧ pyStrip line ≠ [] then [32] ++ line else []) := by
  have h3 := hts
  unfold allMatchesTsFail at h3
  rw [Bool.and_eq_true, Bool.and_eq_true] at h3
  obtain ⟨⟨t0, t1⟩, t2⟩ := h3
  refine lineStep_no_record st line hcur ?_ ?_ ?_
  · intro ts snd msg h
    right
    rw [h] at t0
    simp only [tsFailOf] at t0
    exact Option.isNone_iff_eq_none.mp t0
  · intro ts snd msg h
    right
    rw [h] at t1
    simp only [tsFailOf] at t1
    exact Option.isNone_iff_eq_none.mp t1
  · intro ts snd msg h
    right
    rw [h] at t2
    simp only [tsFailOf] at t2
    exact Option.isNone_iff_eq_none.mp t2

/-- Concrete state for the C6 witness. -/
def c6State : ParseState :=
  ⟨[⟨⟨2024, 8, 24, 21, 35, 29⟩, S "Alice", S "hello there"⟩], [], []⟩

/-- Concrete grammar-matching, timestamp-unparsable line for the C6
witness. -/
def c6Line : List Nat := S "[99/99/2024, 21:36:00] Carol: hi"

/-- Witness for the C6 amended theorem at a concrete input. -/
theorem C6_amended_witness :
    anyGrammarMatches (clean_message c6Line) = true ∧
    allMatchesTsFail (clean_message c6Line) = true ∧
    ((lineStep c6State c6Line).messages = c6State.messages ∧
     (lineStep c6State c6Line).current =
       (if c6State.messages ≠ [] ∧ pyStrip c6Line ≠ [] then [32] ++ c6Line
        else [])) :=
  ⟨by decide, by decide,
    C6_amended_unparsable_timestamp_no_record c6State c6Line rfl (by decide)
      (by decide)⟩

/-- The thread invariant is preserved by one step of the thread state
machine: every emitted viral message was produced by
`to_viral_message` under the `is_significant` guard. -/
theorem threadStep_inv (acc : List ViralMessage × Option MessageThread)
    (row : List Nat × Int)
    (h : ∀ v ∈ acc.1, 2 ≤ v.replies ∧ v.replies = v.thread.length) :
    ∀ v ∈ (threadStep acc row).1, 2 ≤ v.replies ∧ v.replies = v.thread.length := by
  intro v hv
  by_cases hskip : system_message_match row.1 = true ∨ (pySplit row.1).length < 3
  · rw [threadStep, if_pos hskip] at hv
    exact h v hv
  · rw [threadStep, if_neg hskip] at hv
    rcases hacc : acc.2 with _ | th
    · rw [hacc] at hv
      exact h v hv
    · rw [hacc] at hv
      dsimp only at hv
      by_cases hjoin : th.is_active row.2 = true ∧ th.is_related row.1 = true
      · rw [if_pos hjoin] at hv
        exact h v hv
      · rw [if_neg hjoin] at hv
        dsimp only at hv
        by_cases hsig : th.is_significant = true
        · rw [if_pos hsig] at hv
          rcases List.mem_append.mp hv with h1 | h1
          · exact h v h1
          · have hveq : v = th.to_viral_message := List.mem_singleton.mp h1
            subst hveq
            refine ⟨?_, rfl⟩
            simpa [MessageThread.is_significant] using hsig
        · rw [if_neg hsig] at hv
          exact h v hv

/-- Emission preserved by the whole fold. -/
theorem foldl_threadStep_inv (rows : List (List Nat × Int))
    (acc : List ViralMessage × Option MessageThread)
    (h : ∀ v ∈ acc.1, 2 ≤ v.replies ∧ v.replies = v.thread.length) :
    ∀ v ∈ (rows.foldl threadStep acc).1,
      2 ≤ v.replies ∧ v.replies = v.thread.length := by
  induction rows generalizing acc with
  | nil => exact h
  | cons r rest ih => exact ih _ (threadStep_inv acc r h)

/-- Membership through the stable descending insertion. -/
theorem mem_insertDescBy {α : Type} (key : α → Nat) (x : α) (l : List α)
    (a : α) (h : a ∈ insertDescBy key x l) : a = x ∨ a ∈ l := by
  induction l with
  | nil => simpa [insertDescBy] using h
  | cons y ys ih =>
    unfold insertDescBy at h
    split at h
    · rcases List.mem_cons.mp h with h1 | h1
      · exact Or.inl h1
      · exact Or.inr h1
    · rcases List.mem_cons.mp h with h1 | h1
      · exact Or.inr (h1 ▸ List.mem_cons_self _ _)
      · rcases ih h1 with h2 | h2
        · exact Or.inl h2
        · exact Or.inr (List.mem_cons_of_mem _ h2)

/-- Membership through the stable descending sort. -/
theorem mem_sortDescBy {α : Type} (key : α → Nat) (l : List α) (a : α)
    (h : a ∈ sortDescBy key l) : a ∈ l := by
  suffices haux : ∀ (l2 : List α) (acc : List α) (b : α),
      b ∈ l2.foldl (fun acc x => insertDescBy key x acc) acc → b ∈ acc ∨ b ∈ l2 by
    rcases haux l [] a h with h1 | h1
    · cases h1
    · exact h1
  intro l2
  induction l2 with
  | nil => intro acc b hb; exact Or.inl hb
  | cons x xs ih =>
    intro acc b hb
    rcases ih _ b hb with h1 | h1
    · rcases mem_insertDescBy key x acc b h1 with h2 | h2
      · exact Or.inr (h2 ▸ List.mem_cons_self _ _)
      · exact Or.inl h2
    · exact Or.inr (List.mem_cons_of_mem _ h1)

/-- C7: every Thread emitted by the thread reconstructor has at least 2
accumulated members and reports `replies` equal to the number of
accumulated members: emission happens only under `is_significant`, and
`to_viral_message` copies `len(messages)` into `replies` and `messages`
into `thread`; the engagement sort and the top-3 cut only select among
emitted threads. -/
theorem C7_threads_two_members_replies (rows : List (List Nat × Int))
    (v : ViralMessage) (hv : v ∈ process_message_threads rows) :
    2 ≤ v.replies ∧ v.replies = v.thread.length := by
  unfold process_message_threads at hv
  have hv1 := List.take_subset _ _ hv
  have hv2 := mem_sortDescBy _ _ _ hv1
  have hbase := foldl_threadStep_inv rows ([], none) (by intro w hw; cases hw)
  rcases hf : (rows.foldl threadStep ([], none)).2 with _ | th
  · rw [hf] at hv2
    exact hbase v hv2
  · rw [hf] at hv2
    dsimp only at hv2
    by_cases hsig : th.is_significant = true
    · rw [if_pos hsig] at hv2
      rcases List.mem_append.mp hv2 with h1 | h1
      · exact hbase v h1
      · have hveq : v = th.to_viral_message := List.mem_singleton.mp h1
        subst hveq
        refine ⟨?_, rfl⟩
        simpa [MessageThread.is_significant] using hsig
    · rw [if_neg hsig] at hv2
      exact hbase v hv2

/-- Witness for C7: three related three-token messages within the window
produce exactly one emitted thread with 2 members and 2 replies. -/
theorem C7_threads_witness :
    (ViralMessage.mk (S "aaa bbb ccc") 2 0 [S "aaa bbb ccc", S "aaa bbb ccc"] ∈
      process_message_threads
        [(S "aaa bbb ccc", 0), (S "aaa bbb ccc", 1), (S "aaa bbb ccc", 2)]) ∧
    2 ≤ (ViralMessage.mk (S "aaa bbb ccc") 2 0
        [S "aaa bbb ccc", S "aaa bbb ccc"]).replies ∧
    (ViralMessage.mk (S "aaa bbb ccc") 2 0
        [S "aaa bbb ccc", S "aaa bbb ccc"]).replies =
      (ViralMessage.mk (S "aaa bbb ccc") 2 0
        [S "aaa bbb ccc", S "aaa bbb ccc"]).thread.length :=
  ⟨by decide,
    C7_threads_two_members_replies
      [(S "aaa bbb ccc", 0), (S "aaa bbb ccc", 1), (S "aaa bbb ccc", 2)]
      (ViralMessage.mk (S "aaa bbb ccc") 2 0 [S "aaa bbb ccc", S "aaa bbb ccc"])
      (by decide)⟩

/-- A hit in the sentiment cache is one of its entries. -/
theorem lookupBatch_mem (cache : List (List (List Nat) × ℚ))
    (k : List (List Nat)) (v : ℚ) (h : lookupBatch cache k = some v) :
    (k, v) ∈ cache := by
  induction cache with
  | nil => cases h
  | cons p rest ih =>
    unfold lookupBatch at h
    split at h
    · rename_i heq
      cases h
      cases p
      simp_all
    · exact List.mem_cons_of_mem _ (ih h)

/-- C8: the sentiment batch analyzer returns a score in [-1, 1] whenever
every cached score is in [-1, 1] (the cache is only ever populated with
clamped scores); a batch left empty by the media filter yields exactly
0.0 with no remote call; an uncached batch whose remote call fails
yields exactly 0.0; and an uncached batch whose remote call succeeds
returns the clamp of the returned value into [-1, 1], even when that
value is out of range. -/
theorem C8_sentiment_batch_clamped_neutral
    (remote : List (List Nat) → Option ℚ)
    (cache : List (List (List Nat) × ℚ)) (batch : List (List Nat))
    (hcache : ∀ p ∈ cache, -1 ≤ p.2 ∧ p.2 ≤ 1) :
    (-1 ≤ (analyze_sentiment_batch remote cache batch).1 ∧
      (analyze_sentiment_batch remote cache batch).1 ≤ 1) ∧
    (filterMediaMsgs batch = [] →
      analyze_sentiment_batch remote cache batch = (0, cache, false)) ∧
    (filterMediaMsgs batch ≠ [] →
      lookupBatch cache (filterMediaMsgs batch) = none →
      remote (filterMediaMsgs batch) = none →
      (analyze_sentiment_batch remote cache batch).1 = 0) ∧
    (∀ vq, filterMediaMsgs batch ≠ [] →
      lookupBatch cache (filterMediaMsgs batch) = none →
      remote (filterMediaMsgs batch) = some vq →
      (analyze_sentiment_batch remote cache batch).1 = max (min vq 1) (-1)) := by
  by_cases hf : filterMediaMsgs batch = []
  · refine ⟨?_, ?_, ?_, ?_⟩
    · simp [analyze_sentiment_batch, hf]
    · intro
      simp [analyze_sentiment_batch, hf]
    · intro hne
      exact absurd hf hne
    · intro vq hne
      exact absurd hf hne
  · rcases hl : lookupBatch cache (filterMediaMsgs batch) with _ | s
    · rcases hr : remote (filterMediaMsgs batch) with _ | vq
      · refine ⟨?_, ?_, ?_, ?_⟩
        · simp [analyze_sentiment_batch, hf, hl, hr]
        · intro hff; exact absurd hff hf
        · intro _ _ _
          simp [analyze_sentiment_batch, hf, hl, hr]
        · intro wq _ _ hw
          cases hw
      · refine ⟨?_, ?_, ?_, ?_⟩
        · constructor
          · simp only [analyze_sentiment_batch, hf, hl, hr, if_neg hf]
            exact le_max_right _ _
          · simp only [analyze_sentiment_batch, hf, hl, hr, if_neg hf]
            exact max_le (le_trans (min_le_right _ _) le_rfl) (by norm_num)
        · intro hff; exact absurd hff hf
        · intro _ _ hrr
          cases hrr
        · intro wq _ _ hw
          cases hw
          simp [analyze_sentiment_batch, hf, hl, hr]
    · refine ⟨?_, ?_, ?_, ?_⟩
      · have hmem := lookupBatch_mem cache (filterMediaMsgs batch) s hl
        have hrange := hcache _ hmem
        simpa [analyze_sentiment_batch, hf, hl] using hrange
      · intro hff; exact absurd hff hf
      · intro _ hll
        cases hll
      · intro wq _ hll
        cases hll

/-- Witness for C8 at a concrete input: empty cache, a one-message batch
that survives the media filter, and a collaborator returning the
out-of-range score 5. -/
theorem C8_sentiment_batch_witness :
    (-1 ≤ (analyze_sentiment_batch (fun _ => some 5) [] [S "great"]).1 ∧
      (analyze_sentiment_batch (fun _ => some 5) [] [S "great"]).1 ≤ 1) ∧
    (filterMediaMsgs [S "great"] = [] →
      analyze_sentiment_batch (fun _ => some 5) [] [S "great"] = (0, [], false)) ∧
    (filterMediaMsgs [S "great"] ≠ [] →
      lookupBatch [] (filterMediaMsgs [S "great"]) = none →
      (fun (_ : List (List Nat)) => some (5 : ℚ)) (filterMediaMsgs [S "great"]) = none →
      (analyze_sentiment_batch (fun _ => some 5) [] [S "great"]).1 = 0) ∧
    (∀ vq, filterMediaMsgs [S "great"] ≠ [] →
      lookupBatch [] (filterMediaMsgs [S "great"]) = none →
      (fun (_ : List (List Nat)) => some (5 : ℚ)) (filterMediaMsgs [S "great"]) = some vq →
      (analyze_sentiment_batch (fun _ => some 5) [] [S "great"]).1 =
        max (min vq 1) (-1)) :=
  C8_sentiment_batch_clamped_neutral (fun _ => some 5) [] [S "great"]
    (by intro p hp; cases hp)
